import Mathlib

/-!
# Verification of the navigation-and-movement core of preview.domedreaming.com

Shallow embedding of the first-person navigation subsystem:

* `src/assets/js/3d/movement.js` — `updateMovement`, `updateRotation`,
  the `touchMovement` intent record;
* `src/assets/js/3d/config.js` — `CAMERA_HEIGHT`, `NAVMESH_SEARCH_BOX`;
* `src/assets/js/core/settings.js` — the settings module exports;
* the camera-controls module (`setupCameraControls`, `onMouseMove`) — the
  drag/pointer-lock/touch orientation update with its pitch clamp;
* the GUI module's `setMovementKey` keyboard handler.

Vectors are modelled over `ℚ` (exact arithmetic in place of IEEE doubles);
the orientation clamp, whose bound is `π/2`, is modelled over `ℝ`, and a
separate NaN-tracking number type models the JavaScript float semantics
where the error-handling claims need it.  The navmesh service
(`navMeshQuery.findClosestPoint`) is an abstract function parameter
`Vec3 → Vec3 → Option Vec3` (point, halfExtents ↦ success/point), and
`updateMovement` additionally returns the list of query points it issued,
so that "no query is issued" claims are statements about that trace.
-/

/-- A 3-component vector, mirroring `THREE.Vector3` with exact coordinates. -/
@[ext]
structure Vec3 where
  x : ℚ
  y : ℚ
  z : ℚ
  deriving DecidableEq, Repr

/-- `THREE.Vector3.add` (componentwise). -/
def Vec3.add (a b : Vec3) : Vec3 := ⟨a.x + b.x, a.y + b.y, a.z + b.z⟩

/-- `THREE.Vector3.multiplyScalar` (componentwise). -/
def Vec3.smul (a : Vec3) (t : ℚ) : Vec3 := ⟨a.x * t, a.y * t, a.z * t⟩

/-- `new THREE.Vector3()` — the zero vector. -/
def Vec3.zero : Vec3 := ⟨0, 0, 0⟩

/-- `movement.length() === 0`: the Euclidean length of a vector is zero iff
its squared length is, so the test is embedded on the squared length. -/
def Vec3.lengthSqZero (v : Vec3) : Bool :=
  v.x * v.x + v.y * v.y + v.z * v.z == 0

/-- The keyboard state dictionary `keys` from camera.js, restricted to the
entries `updateMovement`/`updateRotation` read: `"w" "s" "a" "d" " "
"shift" "q" "e"` (the handlers store lowercased keys). -/
structure Keys where
  w : Bool
  s : Bool
  a : Bool
  d : Bool
  space : Bool
  shift : Bool
  q : Bool
  e : Bool
  deriving DecidableEq, Repr

/-- The `touchMovement` record exported by movement.js (lines 10–19). -/
structure TouchMovement where
  forward : Bool
  backward : Bool
  left : Bool
  right : Bool
  rotateLeft : Bool
  rotateRight : Bool
  up : Bool
  down : Bool
  deriving DecidableEq, Repr

/-- The state read and written by `updateMovement`:
the module flags (`modelLoaded` from camera.js, `settings.flyMode`,
`settings.moveSpeed`), the input state (`keys`, `touchMovement`), the
camera-derived unit basis vectors (`forward` = column 2 of
`camera.matrixWorld` negated and normalized, `right` = column 0
normalized — kept abstract here since only their role as basis vectors
matters to the movement accumulation), the camera world position, and the
navmesh query service (`null` or a function, as set by `setNavMeshQuery`). -/
structure MoveState where
  modelLoaded : Bool
  flyMode : Bool
  moveSpeed : ℚ
  keys : Keys
  touch : TouchMovement
  forwardV : Vec3
  rightV : Vec3
  position : Vec3
  navQuery : Option (Vec3 → Vec3 → Option Vec3)

/-- `if (cond) movement.add(v);` — conditionally accumulate a contribution. -/
def addIf (c : Bool) (m v : Vec3) : Vec3 := if c then m.add v else m

/-- `export const CAMERA_HEIGHT = 1.6;` (config.js line 4). -/
def CAMERA_HEIGHT : ℚ := 8 / 5

/-- `export const NAVMESH_SEARCH_BOX = { x: 5, y: 10, z: 5 };` (config.js line 5). -/
def NAVMESH_SEARCH_BOX : Vec3 := ⟨5, 10, 5⟩

/-- movement.js lines 39–59: the displacement ("movement") vector summed
from the active intents, faithful to the source's sequence of conditional
`movement.add(... .multiplyScalar(...))` statements, including the
fly-mode-only vertical block. -/
def displacement (st : MoveState) (deltaTime : ℚ) : Vec3 :=
  let currentMoveSpeed := st.moveSpeed * deltaTime
  let touchMoveSpeed := currentMoveSpeed * 2
  let m := Vec3.zero
  let m := addIf st.keys.w m (st.forwardV.smul currentMoveSpeed)
  let m := addIf st.keys.s m (st.forwardV.smul (-currentMoveSpeed))
  let m := addIf st.keys.a m (st.rightV.smul (-currentMoveSpeed))
  let m := addIf st.keys.d m (st.rightV.smul currentMoveSpeed)
  let m := addIf st.touch.forward m (st.forwardV.smul touchMoveSpeed)
  let m := addIf st.touch.backward m (st.forwardV.smul (-touchMoveSpeed))
  let m := addIf st.touch.left m (st.rightV.smul (-touchMoveSpeed))
  let m := addIf st.touch.right m (st.rightV.smul touchMoveSpeed)
  if st.flyMode then
    let up : Vec3 := ⟨0, 1, 0⟩
    let m := addIf (st.keys.space || st.touch.up) m (up.smul currentMoveSpeed)
    let m := addIf (st.keys.shift || st.touch.down) m (up.smul (-currentMoveSpeed))
    m
  else m

/-- movement.js lines 70–72: `newPosition` — the candidate position, with
only X and Z displaced (Y unchanged). -/
def newPositionOf (st : MoveState) (mv : Vec3) : Vec3 :=
  ⟨st.position.x + mv.x, st.position.y, st.position.z + mv.z⟩

/-- movement.js lines 74–78: `feetPosition` — candidate position with Y
lowered by `CAMERA_HEIGHT`. -/
def feetPositionOf (st : MoveState) (mv : Vec3) : Vec3 :=
  ⟨(newPositionOf st mv).x, (newPositionOf st mv).y - CAMERA_HEIGHT,
    (newPositionOf st mv).z⟩

/-- movement.js line 89: the X-only slide query point
`{ x: newPosition.x, y: camera.position.y - CAMERA_HEIGHT, z: camera.position.z }`. -/
def slideXPoint (st : MoveState) (mv : Vec3) : Vec3 :=
  ⟨(newPositionOf st mv).x, st.position.y - CAMERA_HEIGHT, st.position.z⟩

/-- movement.js line 96: the Z-only slide query point
`{ x: camera.position.x, y: camera.position.y - CAMERA_HEIGHT, z: newPosition.z }`. -/
def slideZPoint (st : MoveState) (mv : Vec3) : Vec3 :=
  ⟨st.position.x, st.position.y - CAMERA_HEIGHT, (newPositionOf st mv).z⟩

/-- movement.js lines 25–107: `updateMovement(deltaTime)`.  Returns the
final camera position together with the list of points passed to
`navMeshQuery.findClosestPoint` this frame, in issue order (every call in
the source passes `halfExtents: NAVMESH_SEARCH_BOX`, which the embedding
passes to the abstract query at each call site). -/
def updateMovement (st : MoveState) (deltaTime : ℚ) : Vec3 × List Vec3 :=
  if !st.modelLoaded then (st.position, [])
  else
    let movement := displacement st deltaTime
    if movement.lengthSqZero then (st.position, [])
    else if st.flyMode then (st.position.add movement, [])
    else
      match st.navQuery with
      | some query =>
        let feetPosition := feetPositionOf st movement
        match query feetPosition NAVMESH_SEARCH_BOX with
        | some p => (⟨p.x, p.y + CAMERA_HEIGHT, p.z⟩, [feetPosition])
        | none =>
          let xPoint := slideXPoint st movement
          match query xPoint NAVMESH_SEARCH_BOX with
          | some p =>
            (⟨p.x, p.y + CAMERA_HEIGHT, st.position.z⟩, [feetPosition, xPoint])
          | none =>
            let zPoint := slideZPoint st movement
            match query zPoint NAVMESH_SEARCH_BOX with
            | some p =>
              (⟨st.position.x, p.y + CAMERA_HEIGHT, p.z⟩,
                [feetPosition, xPoint, zPoint])
            | none => (st.position, [feetPosition, xPoint, zPoint])
      | none => (st.position.add movement, [])

/-- The state read and written by `updateRotation` (movement.js lines
109–139): the module flags and input state, the shared `euler` yaw
component (`euler.y`, camera.js), the `qeRotationSpeed` module variable,
and the camera's own rotation as its yaw component (`camEulerY`,
written by `camera.quaternion.setFromEuler(euler)`; pitch and roll are
untouched by this function). -/
structure RotState where
  modelLoaded : Bool
  moveSpeed : ℚ
  keys : Keys
  touch : TouchMovement
  eulerY : ℚ
  qeRotationSpeed : ℚ
  camEulerY : ℚ
  deriving DecidableEq, Repr

/-- movement.js lines 109–139: `updateRotation(deltaTime)`.  The source's
`keys["q"] || keys["Q"]` lookups are embedded as the single lowercase
entry, since the keydown handlers store `e.key.toLowerCase()`, so the
`"Q"`/`"E"` entries are never set. -/
def updateRotation (st : RotState) (deltaTime : ℚ) : RotState :=
  let rotationSpeed := st.moveSpeed * 2
  let st1 :=
    if st.keys.q then { st with qeRotationSpeed := rotationSpeed }
    else if st.keys.e then { st with qeRotationSpeed := -rotationSpeed }
    else { st with qeRotationSpeed := 0 }
  let st2 :=
    if st1.qeRotationSpeed != 0 && st1.modelLoaded then
      let e1 := st1.eulerY + st1.qeRotationSpeed * deltaTime
      { st1 with eulerY := e1, camEulerY := e1 }
    else st1
  if st2.modelLoaded then
    let touchRotationSpeed := rotationSpeed
    let st3 :=
      if st2.touch.rotateLeft then
        let e1 := st2.eulerY + touchRotationSpeed * deltaTime
        { st2 with eulerY := e1, camEulerY := e1 }
      else st2
    if st3.touch.rotateRight then
      let e1 := st3.eulerY - touchRotationSpeed * deltaTime
      { st3 with eulerY := e1, camEulerY := e1 }
    else st3
  else st2

/-- gui.js (`setMovementKey(key, active)`): maps a lowercased key to the
`touchMovement` intent it drives (the source's `if (!touchMovement)
return` guard is a presence check on the record itself, which the
embedding always has). -/
def setMovementKey (tm : TouchMovement) (key : String) (active : Bool) :
    TouchMovement :=
  match key with
  | "w" => { tm with forward := active }
  | "s" => { tm with backward := active }
  | "a" => { tm with left := active }
  | "d" => { tm with right := active }
  | "q" => { tm with rotateLeft := active }
  | "e" => { tm with rotateRight := active }
  | _ => tm

/-- gui.js `setupKeyboardHandlers`, keydown listener: lowercases the key
and calls `setMovementKey(key, true)`.  The `modelLoaded` argument records
the camera.js module flag at event time; the handler body — faithful to
the source — never consults it. -/
def keydownMoveHandler (_modelLoaded : Bool) (tm : TouchMovement)
    (key : String) : TouchMovement :=
  setMovementKey tm key true

/-- `settings.flyMode`: the settings module
(src/assets/js/core/settings.js) exports no `flyMode` binding, so the
namespace-import access `settings.flyMode` in movement.js evaluates to
`undefined`, which is falsy in both `if (settings.flyMode)` tests. -/
def settingsFlyMode : Bool := false

/-- `export let moveSpeed = 1;` (settings.js line 2). -/
def settingsMoveSpeed : ℚ := 1

/-- Orientation state mutated by the drag/pointer-lock handlers:
`euler.y` (yaw) and `euler.x` (pitch), over the reals. -/
structure Euler2 where
  y : ℝ
  x : ℝ

/-- The orientation update shared verbatim by the four drag-handler sites
(camera-controls mousemove lines 46–49 and touchmove lines 100–103;
pointer-lock `onMouseMove` lines 81–84 and touchmove lines 133–136):

`euler.y -= dx * sensitivity; euler.x -= dy * sensitivity;`
`euler.x = Math.max(-Math.PI / 2, Math.min(Math.PI / 2, euler.x));` -/
noncomputable def applyLookDelta (e : Euler2) (dx dy sensitivity : ℝ) :
    Euler2 :=
  { y := e.y - dx * sensitivity
    x := max (-(Real.pi / 2)) (min (Real.pi / 2) (e.x - dy * sensitivity)) }

/-- A JavaScript IEEE-754 number as the claims here need it: either NaN or
a finite value (modelled exactly). -/
inductive JsNum where
  | nan : JsNum
  | fin : ℝ → JsNum

/-- JavaScript subtraction: NaN-propagating. -/
noncomputable def jsSub : JsNum → JsNum → JsNum
  | JsNum.fin a, JsNum.fin b => JsNum.fin (a - b)
  | _, _ => JsNum.nan

/-- JavaScript multiplication: NaN-propagating. -/
noncomputable def jsMul : JsNum → JsNum → JsNum
  | JsNum.fin a, JsNum.fin b => JsNum.fin (a * b)
  | _, _ => JsNum.nan

/-- `Math.min`: returns NaN if either argument is NaN. -/
noncomputable def jsMin : JsNum → JsNum → JsNum
  | JsNum.fin a, JsNum.fin b => JsNum.fin (min a b)
  | _, _ => JsNum.nan

/-- `Math.max`: returns NaN if either argument is NaN. -/
noncomputable def jsMax : JsNum → JsNum → JsNum
  | JsNum.fin a, JsNum.fin b => JsNum.fin (max a b)
  | _, _ => JsNum.nan

/-- Orientation state over JavaScript numbers (NaN representable). -/
structure JsEuler where
  y : JsNum
  x : JsNum

/-- The same four-site orientation update as `applyLookDelta`, over
JavaScript number semantics (the source has no NaN check). -/
noncomputable def applyLookDeltaJs (e : JsEuler) (dx dy sensitivity : JsNum) :
    JsEuler :=
  { y := jsSub e.y (jsMul dx sensitivity)
    x := jsMax (JsNum.fin (-(Real.pi / 2)))
          (jsMin (JsNum.fin (Real.pi / 2)) (jsSub e.x (jsMul dy sensitivity))) }

/-! ## Helper lemmas -/

/-- Scalar indicator of a boolean intent. -/
def ind (c : Bool) : ℚ := if c then 1 else 0

theorem Vec3.smul_smul (v : Vec3) (a b : ℚ) :
    (v.smul a).smul b = v.smul (a * b) := by
  simp [Vec3.smul, mul_assoc]

theorem addIf_eq_add_smul (c : Bool) (m v : Vec3) :
    addIf c m v = m.add (v.smul (ind c)) := by
  cases c <;> simp [addIf, ind, Vec3.add, Vec3.smul]

/-- Closed form of the accumulated movement vector: forward, right and
world-up contributions with their per-source scales. -/
theorem displacement_expand (st : MoveState) (dt : ℚ) :
    displacement st dt =
      ((st.forwardV.smul ((ind st.keys.w - ind st.keys.s) * (st.moveSpeed * dt)
          + (ind st.touch.forward - ind st.touch.backward)
            * (2 * (st.moveSpeed * dt)))).add
        ((st.rightV.smul ((ind st.keys.d - ind st.keys.a) * (st.moveSpeed * dt)
          + (ind st.touch.right - ind st.touch.left)
            * (2 * (st.moveSpeed * dt)))).add
          ((Vec3.mk 0 1 0).smul
            (if st.flyMode
              then (ind (st.keys.space || st.touch.up)
                  - ind (st.keys.shift || st.touch.down)) * (st.moveSpeed * dt)
              else 0)))) := by
  unfold displacement
  cases hf : st.flyMode <;>
    simp only [hf, if_true, if_false, Bool.false_eq_true, addIf_eq_add_smul] <;>
    ext <;>
    simp [Vec3.add, Vec3.smul, Vec3.zero] <;>
    ring

/-- The movement vector is homogeneous in the elapsed time. -/
theorem displacement_smul_dt (st : MoveState) (dt : ℚ) :
    displacement st dt = (displacement st 1).smul dt := by
  rw [displacement_expand st dt, displacement_expand st 1]
  cases hf : st.flyMode <;>
    simp only [hf, if_true, if_false, Bool.false_eq_true] <;>
    ext <;>
    simp [Vec3.add, Vec3.smul] <;>
    ring

/-! ## Concrete states for witnesses -/

/-- All keyboard entries up. -/
def keysNone : Keys := ⟨false, false, false, false, false, false, false, false⟩

/-- All touch intents inactive. -/
def touchNone : TouchMovement :=
  ⟨false, false, false, false, false, false, false, false⟩

/-- A navmesh query that always succeeds at the queried point. -/
def qAll : Vec3 → Vec3 → Option Vec3 := fun p _ => some p

/-- A navmesh query that succeeds only at `(1, 0, 0)` — the X-slide point
of `stW1` below — and fails everywhere else. -/
def qSlide : Vec3 → Vec3 → Option Vec3 :=
  fun p _ => if p = ⟨1, 0, 0⟩ then some ⟨1, 0, 0⟩ else none

/-- Grounded state, `w` held, camera facing world `-Z` at eye height. -/
def stW3 : MoveState :=
  { modelLoaded := true, flyMode := false, moveSpeed := 1
    keys := { keysNone with w := true }, touch := touchNone
    forwardV := ⟨0, 0, -1⟩, rightV := ⟨1, 0, 0⟩
    position := ⟨0, 8 / 5, 0⟩, navQuery := some qAll }

/-- Grounded state, `w` and `d` held, against the slide-only query. -/
def stW1 : MoveState :=
  { modelLoaded := true, flyMode := false, moveSpeed := 1
    keys := { keysNone with w := true, d := true }, touch := touchNone
    forwardV := ⟨0, 0, -1⟩, rightV := ⟨1, 0, 0⟩
    position := ⟨0, 8 / 5, 0⟩, navQuery := some qSlide }

/-- Grounded state, `w` held, no navmesh service. -/
def stKbd : MoveState :=
  { modelLoaded := true, flyMode := false, moveSpeed := 1
    keys := { keysNone with w := true }, touch := touchNone
    forwardV := ⟨0, 0, -1⟩, rightV := ⟨1, 0, 0⟩
    position := ⟨0, 8 / 5, 0⟩, navQuery := none }

/-- Grounded state with `w` and `s` held together: the two contributions
cancel exactly, although the navmesh service is available. -/
def stCancel : MoveState :=
  { modelLoaded := true, flyMode := false, moveSpeed := 1
    keys := { keysNone with w := true, s := true }, touch := touchNone
    forwardV := ⟨0, 0, -1⟩, rightV := ⟨1, 0, 0⟩
    position := ⟨0, 8 / 5, 0⟩, navQuery := some qAll }

/-- Fly-mode state with only the touch `up` intent active. -/
def stUpOnly : MoveState :=
  { modelLoaded := true, flyMode := true, moveSpeed := 1
    keys := keysNone, touch := { touchNone with up := true }
    forwardV := ⟨0, 0, -1⟩, rightV := ⟨1, 0, 0⟩
    position := ⟨0, 8 / 5, 0⟩, navQuery := none }

/-- Fly-mode state with only the touch `up` intent active and the navmesh
service available. -/
def stFlyUp : MoveState :=
  { modelLoaded := true, flyMode := true, moveSpeed := 1
    keys := keysNone, touch := { touchNone with up := true }
    forwardV := ⟨0, 0, -1⟩, rightV := ⟨1, 0, 0⟩
    position := ⟨0, 8 / 5, 0⟩, navQuery := some qAll }

/-- State before the model-loaded signal, with intents already pressed. -/
def stNotLoaded : MoveState :=
  { modelLoaded := false, flyMode := false, moveSpeed := 1
    keys := { keysNone with w := true }, touch := touchNone
    forwardV := ⟨0, 0, -1⟩, rightV := ⟨1, 0, 0⟩
    position := ⟨0, 8 / 5, 0⟩, navQuery := some qAll }

/-- Rotation state before the model-loaded signal, with `q` held and the
touch rotate-left button pressed. -/
def rsNotLoaded : RotState :=
  { modelLoaded := false, moveSpeed := 1
    keys := { keysNone with q := true }
    touch := { touchNone with rotateLeft := true }
    eulerY := 0, qeRotationSpeed := 0, camEulerY := 0 }

/-- Grounded state built on the settings module's actual exports
(`flyMode` missing hence falsy, `moveSpeed = 1`), with `w` held and all
three vertical intent sources active. -/
def stGround : MoveState :=
  { modelLoaded := true, flyMode := settingsFlyMode
    moveSpeed := settingsMoveSpeed
    keys := { keysNone with w := true, space := true }
    touch := { touchNone with up := true }
    forwardV := ⟨0, 0, -1⟩, rightV := ⟨1, 0, 0⟩
    position := ⟨0, 8 / 5, 0⟩, navQuery := some qAll }

/-! ## Claim theorems -/

/-- C1: in grounded mode with the navmesh service available and a nonzero
summed displacement, when the direct query at the candidate feet point
fails, `updateMovement` issues the X-only slide query first and only on
its failure the Z-only slide query, applying the first success (with the
original Z kept when the X-slide succeeds); when all three fail the
camera position is unchanged, and the query trace witnesses that the
Z-slide is never issued after an X-slide success. -/
theorem slide_fallback_order (st : MoveState) (dt : ℚ)
    (q : Vec3 → Vec3 → Option Vec3)
    (hml : st.modelLoaded = true) (hfly : st.flyMode = false)
    (hq : st.navQuery = some q)
    (hnz : (displacement st dt).lengthSqZero = false)
    (hdirect :
      q (feetPositionOf st (displacement st dt)) NAVMESH_SEARCH_BOX = none) :
    (∀ p, q (slideXPoint st (displacement st dt)) NAVMESH_SEARCH_BOX = some p →
        updateMovement st dt =
          (⟨p.x, p.y + CAMERA_HEIGHT, st.position.z⟩,
            [feetPositionOf st (displacement st dt),
              slideXPoint st (displacement st dt)]))
    ∧ (q (slideXPoint st (displacement st dt)) NAVMESH_SEARCH_BOX = none →
        (∀ p,
          q (slideZPoint st (displacement st dt)) NAVMESH_SEARCH_BOX = some p →
            updateMovement st dt =
              (⟨st.position.x, p.y + CAMERA_HEIGHT, p.z⟩,
                [feetPositionOf st (displacement st dt),
                  slideXPoint st (displacement st dt),
                  slideZPoint st (displacement st dt)]))
        ∧ (q (slideZPoint st (displacement st dt)) NAVMESH_SEARCH_BOX = none →
            updateMovement st dt =
              (st.position,
                [feetPositionOf st (displacement st dt),
                  slideXPoint st (displacement st dt),
                  slideZPoint st (displacement st dt)]))) := by
  refine ⟨fun p hx => ?_, fun hx => ⟨fun p hz => ?_, fun hz => ?_⟩⟩
  · simp [updateMovement, hml, hfly, hq, hnz, hdirect, hx]
  · simp [updateMovement, hml, hfly, hq, hnz, hdirect, hx, hz]
  · simp [updateMovement, hml, hfly, hq, hnz, hdirect, hx, hz]

/-- Witness for C1: with `w`+`d` held from `(0, 1.6, 0)`, the direct feet
query at `(1, 0, -1)` fails, the X-slide query at `(1, 0, 0)` succeeds,
and the applied position keeps the original Z with no Z-slide query in
the trace. -/
theorem slide_fallback_order_witness :
    updateMovement stW1 1 =
      (⟨1, 0 + CAMERA_HEIGHT, stW1.position.z⟩,
        [feetPositionOf stW1 (displacement stW1 1),
          slideXPoint stW1 (displacement stW1 1)]) := by
  have hd : displacement stW1 1 = ⟨1, 0, -1⟩ := by
    norm_num [displacement, stW1, keysNone, touchNone, addIf, Vec3.add,
      Vec3.smul, Vec3.zero, Vec3.mk.injEq]
  refine (slide_fallback_order stW1 1 qSlide rfl rfl rfl ?_ ?_).1
    ⟨1, 0, 0⟩ ?_
  · rw [hd]; norm_num [Vec3.lengthSqZero]
  · rw [hd]
    norm_num [qSlide, feetPositionOf, newPositionOf, stW1, CAMERA_HEIGHT,
      Vec3.mk.injEq]
  · rw [hd]
    norm_num [qSlide, slideXPoint, newPositionOf, stW1, CAMERA_HEIGHT,
      Vec3.mk.injEq]

/-- C3: in grounded mode `updateMovement` queries the navmesh exactly at
the candidate feet point (candidate position lowered by `CAMERA_HEIGHT`),
and a direct success sets the camera position to exactly
`(p.x, p.y + CAMERA_HEIGHT, p.z)` for the returned point `p`. -/
theorem direct_query_success_eye_height (st : MoveState) (dt : ℚ)
    (q : Vec3 → Vec3 → Option Vec3) (p : Vec3)
    (hml : st.modelLoaded = true) (hfly : st.flyMode = false)
    (hq : st.navQuery = some q)
    (hnz : (displacement st dt).lengthSqZero = false)
    (hdirect :
      q (feetPositionOf st (displacement st dt)) NAVMESH_SEARCH_BOX = some p) :
    updateMovement st dt =
      (⟨p.x, p.y + CAMERA_HEIGHT, p.z⟩,
        [feetPositionOf st (displacement st dt)]) := by
  simp [updateMovement, hml, hfly, hq, hnz, hdirect]

/-- Witness for C3: with `w` held from `(0, 1.6, 0)` and a query that
succeeds at the feet point `(0, 0, -1)`, the camera lands at
`(0, 0 + 1.6, -1)` — eye height exactly above the returned point. -/
theorem direct_query_success_eye_height_witness :
    updateMovement stW3 1 =
      (⟨0, 0 + CAMERA_HEIGHT, -1⟩,
        [feetPositionOf stW3 (displacement stW3 1)]) := by
  have hd : displacement stW3 1 = ⟨0, 0, -1⟩ := by
    norm_num [displacement, stW3, keysNone, touchNone, addIf, Vec3.add,
      Vec3.smul, Vec3.zero, Vec3.mk.injEq]
  refine direct_query_success_eye_height stW3 1 qAll ⟨0, 0, -1⟩ rfl rfl rfl
    ?_ ?_
  · rw [hd]; norm_num [Vec3.lengthSqZero]
  · rw [hd]
    norm_num [qAll, feetPositionOf, newPositionOf, stW3, CAMERA_HEIGHT,
      Vec3.mk.injEq]

/-- C4: for a fixed state (orientation and intents), the displacement
vector is proportional to the elapsed time: for elapsed times
`0 < dt1 < dt2`, `displacement dt2 = (dt2 / dt1) • displacement dt1`. -/
theorem displacement_frame_rate_independent (st : MoveState) (dt1 dt2 : ℚ)
    (h0 : 0 < dt1) (_h12 : dt1 < dt2) :
    displacement st dt2 = (displacement st dt1).smul (dt2 / dt1) := by
  have h0' : dt1 ≠ 0 := ne_of_gt h0
  rw [displacement_smul_dt st dt2, displacement_smul_dt st dt1,
    Vec3.smul_smul]
  congr 1
  field_simp

/-- Witness for C4: doubling the elapsed time from 1/100 to 1/50 doubles
the keyboard-forward displacement. -/
theorem displacement_frame_rate_independent_witness :
    displacement stKbd (1 / 50) =
      (displacement stKbd (1 / 100)).smul ((1 / 50) / (1 / 100)) :=
  displacement_frame_rate_independent stKbd (1 / 100) (1 / 50)
    (by norm_num) (by norm_num)

/-- C6: with the model loaded, a frame whose summed displacement is zero —
no intents, or exactly cancelling contributions — issues no navmesh query
and leaves the camera position unchanged. -/
theorem zero_displacement_no_query (st : MoveState) (dt : ℚ)
    (hml : st.modelLoaded = true) (hz : displacement st dt = Vec3.zero) :
    updateMovement st dt = (st.position, []) := by
  simp [updateMovement, hml, hz, Vec3.lengthSqZero, Vec3.zero]

/-- Witness for C6: `w` and `s` held together cancel exactly; despite an
available navmesh service the frame issues no query and does not move. -/
theorem zero_displacement_no_query_witness :
    updateMovement stCancel 1 = (stCancel.position, []) :=
  zero_displacement_no_query stCancel 1 rfl
    (by norm_num [displacement, stCancel, keysNone, touchNone, addIf,
      Vec3.add, Vec3.smul, Vec3.zero, Vec3.mk.injEq])

/-- C2: every orientation update produced by the mouse-drag, pointer-lock
mouse-move, or touch-drag handlers leaves the stored pitch (`euler.x`)
within `[-π/2, π/2]` inclusive, whatever the magnitude or sign of the
delta (all four handler sites share the `applyLookDelta` update). -/
theorem pitch_always_clamped (e : Euler2) (dx dy sv : ℝ) :
    -(Real.pi / 2) ≤ (applyLookDelta e dx dy sv).x ∧
      (applyLookDelta e dx dy sv).x ≤ Real.pi / 2 := by
  unfold applyLookDelta
  constructor
  · exact le_max_left _ _
  · exact max_le (by linarith [Real.pi_pos]) (min_le_left _ _)

/-- C5 counterexample: in fly mode with only the touch `up` intent active
(`baseSpeed = 1`, `dt = 1`) the code adds `up.multiplyScalar(currentMoveSpeed)`,
yielding `(0, 1, 0)` — not the `(0, 2, 0)` the claim's
`2 × baseSpeed × elapsedTime` scale would give for a touch intent. -/
theorem touch_up_not_double_speed :
    displacement stUpOnly 1 = ⟨0, 1, 0⟩ ∧
      displacement stUpOnly 1 ≠ (Vec3.mk 0 1 0).smul (2 * (1 * 1)) := by
  have hd : displacement stUpOnly 1 = ⟨0, 1, 0⟩ := by
    norm_num [displacement, stUpOnly, keysNone, touchNone, addIf, Vec3.add,
      Vec3.smul, Vec3.zero, Vec3.mk.injEq]
  refine ⟨hd, ?_⟩
  rw [hd]
  norm_num [Vec3.smul, Vec3.mk.injEq]

/-- C5 (amended): every active keyboard intent contributes its basis
vector scaled by `baseSpeed × elapsedTime` and every active touch
forward/backward/left/right intent contributes the corresponding vector
scaled by `2 × baseSpeed × elapsedTime`, but the fly-mode vertical
contributions are scaled by `baseSpeed × elapsedTime` (not doubled) and
merge the keyboard and touch sources by a single logical OR. -/
theorem intent_contribution_scales (st : MoveState) (dt : ℚ) :
    displacement st dt =
      ((st.forwardV.smul ((ind st.keys.w - ind st.keys.s) * (st.moveSpeed * dt)
          + (ind st.touch.forward - ind st.touch.backward)
            * (2 * (st.moveSpeed * dt)))).add
        ((st.rightV.smul ((ind st.keys.d - ind st.keys.a) * (st.moveSpeed * dt)
          + (ind st.touch.right - ind st.touch.left)
            * (2 * (st.moveSpeed * dt)))).add
          ((Vec3.mk 0 1 0).smul
            (if st.flyMode
              then (ind (st.keys.space || st.touch.up)
                  - ind (st.keys.shift || st.touch.down)) * (st.moveSpeed * dt)
              else 0)))) :=
  displacement_expand st dt

/-- C7: with the fly-mode flag set and a nonzero summed displacement,
`updateMovement` adds the displacement directly to the position and
issues no navmesh query; with only the up intent active, `position.y`
increases by exactly `baseSpeed × dt`. -/
theorem fly_mode_bypasses_navmesh (st : MoveState) (dt : ℚ)
    (hml : st.modelLoaded = true) (hfly : st.flyMode = true) :
    ((displacement st dt).lengthSqZero = false →
        updateMovement st dt = (st.position.add (displacement st dt), []))
    ∧ (st.keys.w = false → st.keys.s = false → st.keys.a = false →
        st.keys.d = false → st.touch.forward = false →
        st.touch.backward = false → st.touch.left = false →
        st.touch.right = false →
        (st.keys.space || st.touch.up) = true →
        (st.keys.shift || st.touch.down) = false →
        (updateMovement st dt).1.y = st.position.y + st.moveSpeed * dt ∧
          (updateMovement st dt).2 = []) := by
  constructor
  · intro hnz
    simp [updateMovement, hml, hfly, hnz]
  · intro hw hs ha hd htf htb htl htr hv1 hv2
    have hdis : displacement st dt = ⟨0, st.moveSpeed * dt, 0⟩ := by
      unfold displacement
      simp [hfly, hw, hs, ha, hd, htf, htb, htl, htr, hv1, hv2, addIf,
        Vec3.zero, Vec3.add, Vec3.smul]
    by_cases hsp : st.moveSpeed * dt = 0
    · have hz : displacement st dt = Vec3.zero := by
        rw [hdis, hsp]; rfl
      have hupd : updateMovement st dt = (st.position, []) := by
        simp [updateMovement, hml, hz, Vec3.lengthSqZero, Vec3.zero]
      rw [hupd, hsp]
      simp
    · have hnz : (displacement st dt).lengthSqZero = false := by
        rw [hdis]
        simp [Vec3.lengthSqZero, mul_self_eq_zero, hsp]
      have hupd : updateMovement st dt =
          (st.position.add (displacement st dt), []) := by
        simp [updateMovement, hml, hfly, hnz]
      rw [hupd, hdis]
      simp [Vec3.add]

/-- Witness for C7: fly mode with the touch `up` intent at `dt = 1/10`
raises `position.y` by `1 × 1/10`, with an empty query trace although the
navmesh service is available. -/
theorem fly_mode_bypasses_navmesh_witness :
    (updateMovement stFlyUp (1 / 10)).1.y =
        stFlyUp.position.y + stFlyUp.moveSpeed * (1 / 10) ∧
      (updateMovement stFlyUp (1 / 10)).2 = [] :=
  (fly_mode_bypasses_navmesh stFlyUp (1 / 10) rfl rfl).2
    rfl rfl rfl rfl rfl rfl rfl rfl rfl rfl

/-- C8 counterexample: the GUI keydown handler asserts the forward intent
for `"w"` regardless of the model-loaded flag — here invoked with the
flag `false` — refuting "no movement intent is asserted before the
model-loaded signal is true". -/
theorem intent_asserted_ignoring_model_loaded :
    (keydownMoveHandler false touchNone "w").forward = true := rfl

/-- C8 (amended): input handlers assert movement intents regardless of
the model-loaded flag, but while `modelLoaded` is false neither
`updateMovement` nor `updateRotation` changes the camera: the position is
unchanged with no navmesh query, and both the shared euler yaw and the
camera's own rotation are unchanged. -/
theorem no_camera_update_before_model_loaded (st : MoveState)
    (rs : RotState) (dtm dtr : ℚ)
    (h1 : st.modelLoaded = false) (h2 : rs.modelLoaded = false) :
    updateMovement st dtm = (st.position, []) ∧
      (updateRotation rs dtr).eulerY = rs.eulerY ∧
      (updateRotation rs dtr).camEulerY = rs.camEulerY := by
  refine ⟨by simp [updateMovement, h1], ?_, ?_⟩ <;>
    · unfold updateRotation
      cases hq : rs.keys.q <;> cases he : rs.keys.e <;> simp [h2, hq, he]

/-- Witness for C8: with `w` pressed, `q` held and the rotate-left button
down but the model not yet loaded, the frame functions change neither the
position nor the rotation state. -/
theorem no_camera_update_before_model_loaded_witness :
    updateMovement stNotLoaded 1 = (stNotLoaded.position, []) ∧
      (updateRotation rsNotLoaded 1).eulerY = rsNotLoaded.eulerY ∧
      (updateRotation rsNotLoaded 1).camEulerY = rsNotLoaded.camEulerY :=
  no_camera_update_before_model_loaded stNotLoaded rsNotLoaded 1 1 rfl rfl

/-- C9: the claim says a NaN input delta is rejected at the input
boundary and never reaches the stored yaw/pitch; the code has no such
check, and under JavaScript number semantics a NaN `movementX`/`movementY`
propagates through `euler.y -= dx*s` and through
`Math.max(-π/2, Math.min(π/2, euler.x - dy*s))` — both of which return
NaN on NaN input — leaving the stored pitch NaN instead of its previous
finite value. -/
theorem nan_delta_corrupts_pitch :
    (applyLookDeltaJs ⟨JsNum.fin 0, JsNum.fin 0⟩ JsNum.nan JsNum.nan
        (JsNum.fin (1 / 500))).x = JsNum.nan ∧
      (applyLookDeltaJs ⟨JsNum.fin 0, JsNum.fin 0⟩ JsNum.nan JsNum.nan
          (JsNum.fin (1 / 500))).x ≠ JsNum.fin 0 ∧
      (applyLookDeltaJs ⟨JsNum.fin 0, JsNum.fin 0⟩ JsNum.nan JsNum.nan
          (JsNum.fin (1 / 500))).y = JsNum.nan := by
  refine ⟨rfl, ?_, rfl⟩
  intro h
  simp [applyLookDeltaJs, jsMul, jsSub, jsMin, jsMax] at h

/-- C10: with the settings module as defined — no `flyMode` export, so
`settings.flyMode` is the falsy `undefined` — the fly branch is
unreachable: the vertical intents never contribute to the displacement,
and every nonzero-displacement frame takes the grounded path (a navmesh
query is issued when the service exists, and the displacement is added
directly only when it does not). -/
theorem fly_branch_unreachable_with_settings (st : MoveState) (dt : ℚ)
    (hfly : st.flyMode = settingsFlyMode) :
    displacement st dt =
      displacement { st with
        keys := { st.keys with space := false, shift := false }
        touch := { st.touch with up := false, down := false } } dt
    ∧ ((displacement st dt).lengthSqZero = false → st.modelLoaded = true →
        (st.navQuery = none →
          updateMovement st dt = (st.position.add (displacement st dt), []))
        ∧ (∀ q, st.navQuery = some q →
            (updateMovement st dt).2.head? =
              some (feetPositionOf st (displacement st dt)))) := by
  have hfly' : st.flyMode = false := hfly
  constructor
  · unfold displacement
    simp [hfly']
  · intro hnz hml
    constructor
    · intro hqn
      simp [updateMovement, hml, hfly', hnz, hqn]
    · intro q hq
      simp only [updateMovement, hml, hfly', hnz, hq, Bool.not_true,
        Bool.false_eq_true, if_false]
      rcases hdq : q (feetPositionOf st (displacement st dt))
          NAVMESH_SEARCH_BOX with _ | p
      · rcases hxq : q (slideXPoint st (displacement st dt))
            NAVMESH_SEARCH_BOX with _ | p
        · rcases hzq : q (slideZPoint st (displacement st dt))
              NAVMESH_SEARCH_BOX with _ | p <;>
            simp [hdq, hxq, hzq]
        · simp [hdq, hxq]
      · simp [hdq]

/-- Witness for C10: on the settings module's actual exports, with `w`
held and all vertical intent sources active, the displacement ignores the
vertical intents and the frame issues its first navmesh query at the
candidate feet point. -/
theorem fly_branch_unreachable_with_settings_witness :
    displacement stGround 1 =
      displacement { stGround with
        keys := { stGround.keys with space := false, shift := false }
        touch := { stGround.touch with up := false, down := false } } 1
    ∧ (updateMovement stGround 1).2.head? =
        some (feetPositionOf stGround (displacement stGround 1)) := by
  have hnz : (displacement stGround 1).lengthSqZero = false := by
    norm_num [displacement, stGround, settingsFlyMode, settingsMoveSpeed,
      keysNone, touchNone, addIf, Vec3.add, Vec3.smul, Vec3.zero,
      Vec3.lengthSqZero]
  exact ⟨(fly_branch_unreachable_with_settings stGround 1 rfl).1,
    ((fly_branch_unreachable_with_settings stGround 1 rfl).2 hnz rfl).2
      qAll rfl⟩
